import Mathlib

/-!
Verification of the WebAgent HTTP service (HTML reducer + action generator).

Shallow embedding of the Python sources:
  * `src/action_generator.py` — `ActionGenerator.parse_action`,
    `ActionGenerator.generate_action`, `_build_action_prompt`,
    `_format_history`, and the pydantic action/selector shapes;
  * `src/html_optimizer.py` — `HTMLOptimizer.optimize`,
    `_build_optimization_prompt`;
  * `src/prompts.py` — the two `string.Template` prompts;
  * `main.py` — the `POST /act` handler.

The Python `json.loads` call and the LLM gateway (`LLMClient.generate`)
are external capabilities; they are passed in as function parameters
(`jsonLoads : String → Option Json`, gateways `String → Except String String`
where `Except.error` models a raised exception carrying `str(e)`).
-/

namespace WebAgent

/-- A parsed JSON value, the result of Python `json.loads`.  Numbers are
modelled as rationals (exact values; no claim depends on float rounding). -/
inductive Json where
  | null
  | bool (b : Bool)
  | num (q : Rat)
  | str (s : String)
  | arr (elems : List Json)
  | obj (fields : List (String × Json))

/-- Python truthiness (`bool(x)`) of a decoded JSON value:
`None`, `False`, `0`, `""`, `[]`, `{}` are falsy. -/
def Json.truthy : Json → Bool
  | .null => false
  | .bool b => b
  | .num q => if q = 0 then false else true
  | .str s => if s = "" then false else true
  | .arr elems => if elems.isEmpty then false else true
  | .obj fields => if fields.isEmpty then false else true

/-- Is the decoded value a Python `dict` (a JSON object)? -/
def Json.isObj : Json → Bool
  | .obj _ => true
  | _ => false

/-- Raw association-list lookup on the fields of a decoded JSON object
(a Python `dict` has unique keys; first match). `none` iff the key is absent. -/
def dictFind (fields : List (String × Json)) (key : String) : Option Json :=
  (fields.find? (fun kv => kv.fst == key)).map Prod.snd

/-- Python `data.get(key)`: `None` when the key is absent — and a stored JSON
`null` is also the Python value `None`, so the two collapse. -/
def pyGet (fields : List (String × Json)) (key : String) : Option Json :=
  match dictFind fields key with
  | some .null => none
  | v => v

/-- Python `data.get(key, default)`. -/
def pyGetD (fields : List (String × Json)) (key : String) (dflt : Json) : Json :=
  match dictFind fields key with
  | none => dflt
  | some v => v

/-- Truthiness of a Python value that may be `None`. -/
def optTruthy : Option Json → Bool
  | none => false
  | some v => v.truthy

/-- Python `a or b` on possibly-`None` values: the first operand if truthy,
otherwise the second operand. -/
def pyOr (a b : Option Json) : Option Json :=
  if optTruthy a then a else b

/-- Python `str.strip()` whitespace set (ASCII part: space, tab, newline,
carriage return, vertical tab, form feed). -/
def isPyWhitespace (c : Char) : Bool :=
  c == ' ' || c == '\t' || c == '\n' || c == '\r' ||
    c == Char.ofNat 11 || c == Char.ofNat 12

/-- Python `s.strip()`: remove leading and trailing whitespace. -/
def pyStrip (s : String) : String :=
  String.mk (((s.toList.dropWhile isPyWhitespace).reverse.dropWhile isPyWhitespace).reverse)

/-- The `SelectorType(str, Enum)` of `src/action_generator.py`. -/
inductive SelectorType where
  | ATTRIBUTE_VALUE_SELECTOR
  | TAG_CONTAINS_SELECTOR
  | XPATH_SELECTOR
deriving DecidableEq

/-- The enum member's string value. -/
def SelectorType.value : SelectorType → String
  | .ATTRIBUTE_VALUE_SELECTOR => "attributeValueSelector"
  | .TAG_CONTAINS_SELECTOR => "tagContainsSelector"
  | .XPATH_SELECTOR => "xpathSelector"

/-- The enum member's Python name, as printed by `repr`. -/
def SelectorType.memberName : SelectorType → String
  | .ATTRIBUTE_VALUE_SELECTOR => "ATTRIBUTE_VALUE_SELECTOR"
  | .TAG_CONTAINS_SELECTOR => "TAG_CONTAINS_SELECTOR"
  | .XPATH_SELECTOR => "XPATH_SELECTOR"

/-- Coercion of a JSON string to the enum (pydantic validates by value). -/
def SelectorType.fromValue (s : String) : Option SelectorType :=
  if s == "attributeValueSelector" then some .ATTRIBUTE_VALUE_SELECTOR
  else if s == "tagContainsSelector" then some .TAG_CONTAINS_SELECTOR
  else if s == "xpathSelector" then some .XPATH_SELECTOR
  else none

/-- The `Selector` pydantic model:
`type : SelectorType`, `attribute : str | None = None`, `value : str`. -/
structure Selector where
  type : SelectorType
  attr : Option String
  value : String
deriving DecidableEq

/-- `Selector(**fields)`: pydantic v2 validation of the three fields.
`type` must be a string equal to one of the enum values; `attribute` may be
absent, `null`, or a string; `value` must be a string (pydantic v2 does not
coerce numbers or booleans to `str`). Extra keys are ignored
(default `extra` policy). `Except.error` models a raised `ValidationError`. -/
def Selector.validate (fields : List (String × Json)) : Except String Selector :=
  match pyGet fields "type" with
  | some (.str ts) =>
    match SelectorType.fromValue ts with
    | some st =>
      match pyGet fields "attribute" with
      | none =>
        match pyGet fields "value" with
        | some (.str v) => .ok { type := st, attr := none, value := v }
        | _ => .error "ValidationError: value"
      | some (.str a) =>
        match pyGet fields "value" with
        | some (.str v) => .ok { type := st, attr := some a, value := v }
        | _ => .error "ValidationError: value"
      | some _ => .error "ValidationError: attribute"
    | none => .error "ValidationError: type"
  | _ => .error "ValidationError: type"

/-- The action shapes of `src/action_generator.py`: `BaseAction` and its five
subclasses.  Field order mirrors the pydantic models (inherited fields first):
`ClickAction (type, selector)`, `NavigateAction (type, selector=None, url)`,
`TypeAction (type, selector, text)`, `SelectAction (type, selector, value)`,
`WaitAction (type, selector=None, time_seconds)`.  `ClickAction`, `TypeAction`
and `SelectAction` override `selector` to be required (non-null by shape). -/
inductive Action where
  | ClickAction (type : String) (selector : Selector)
  | NavigateAction (type : String) (url : Option String)
  | TypeAction (type : String) (text : String) (selector : Selector)
  | SelectAction (type : String) (value : String) (selector : Selector)
  | WaitAction (type : String) (time_seconds : Option Rat)
  | BaseAction (type : String) (selector : Option Selector)

/-- The selector carried by a constructed shape, if any. -/
def Action.selectorOf : Action → Option Selector
  | .ClickAction _ sel => some sel
  | .NavigateAction _ _ => none
  | .TypeAction _ _ sel => some sel
  | .SelectAction _ _ sel => some sel
  | .WaitAction _ _ => none
  | .BaseAction _ sel => sel

/-- Does the shape belong to the Click/Type/Select family? -/
def Action.isClickTypeSelect : Action → Bool
  | .ClickAction _ _ => true
  | .TypeAction _ _ _ => true
  | .SelectAction _ _ _ => true
  | _ => false

/-- A single-quote character as a string (used by the Python `repr` forms). -/
def sq : String := String.singleton (Char.ofNat 39)

/-- Model of Python `repr` of a string: the text between single quotes.
(The inputs at play contain no quotes or backslashes, so no escaping arises.) -/
def pyReprStr (s : String) : String := sq ++ s ++ sq

/-- `repr` of an optional string (`None` or quoted). -/
def pyReprOptStr : Option String → String
  | none => "None"
  | some s => pyReprStr s

/-- `repr` of an enum member: for example
`<SelectorType.XPATH_SELECTOR: ...>` with the quoted value inside. -/
def SelectorType.pyRepr (t : SelectorType) : String :=
  "<SelectorType." ++ t.memberName ++ ": " ++ pyReprStr t.value ++ ">"

/-- `repr` of a `Selector` (pydantic model repr). -/
def Selector.pyRepr (s : Selector) : String :=
  "Selector(type=" ++ s.type.pyRepr ++ ", attribute=" ++ pyReprOptStr s.attr
    ++ ", value=" ++ pyReprStr s.value ++ ")"

/-- `repr` of an optional selector field. -/
def pyReprOptSelector : Option Selector → String
  | none => "None"
  | some s => s.pyRepr

/-- `repr` of the optional `time_seconds` float (exact rational model). -/
def pyReprOptRat : Option Rat → String
  | none => "None"
  | some q => toString q

/-- Python `str(obj)` on a pydantic model: space-separated `field=repr(value)`
pairs in model field order (pydantic `__repr_str__`). -/
def Action.render : Action → String
  | .ClickAction t sel =>
      "type=" ++ pyReprStr t ++ " selector=" ++ sel.pyRepr
  | .NavigateAction t url =>
      "type=" ++ pyReprStr t ++ " selector=None url=" ++ pyReprOptStr url
  | .TypeAction t text sel =>
      "type=" ++ pyReprStr t ++ " selector=" ++ sel.pyRepr ++ " text=" ++ pyReprStr text
  | .SelectAction t v sel =>
      "type=" ++ pyReprStr t ++ " selector=" ++ sel.pyRepr ++ " value=" ++ pyReprStr v
  | .WaitAction t ts =>
      "type=" ++ pyReprStr t ++ " selector=None time_seconds=" ++ pyReprOptRat ts
  | .BaseAction t sel =>
      "type=" ++ pyReprStr t ++ " selector=" ++ pyReprOptSelector sel

/-- The discriminant lookup of `parse_action`:
`action_type = data.get("type") or data.get("action")`. -/
def readDiscriminant (fields : List (String × Json)) : Option Json :=
  pyOr (pyGet fields "type") (pyGet fields "action")

/-- Python `str.endswith(suffix)`, stated on the character list (the
built-in `String.endsWith` is extensionally the same test, but it is defined
by well-founded recursion, which blocks kernel evaluation). -/
def pyEndsWith (s suffix : String) : Bool :=
  List.isSuffixOf suffix.toList s.toList

/-- The discriminant normalization of `parse_action`: append the suffix
"Action" unless already present. -/
def normalizeDiscriminant (s : String) : String :=
  if pyEndsWith s "Action" then s else s ++ "Action"

/-- The selector step of `parse_action`: `selector_data = data.get("selector")`
then `Selector(**selector_data) if isinstance(selector_data, dict) else None`.
`Except.error` models the `ValidationError` raised by `Selector(**...)`. -/
def selectorField (fields : List (String × Json)) : Except String (Option Selector) :=
  match pyGet fields "selector" with
  | some (.obj sfs) => (Selector.validate sfs).map some
  | _ => .ok none

/-- Pydantic v2 validation of a required `str` field. -/
def validateStrField (fname : String) : Json → Except String String
  | .str s => .ok s
  | _ => .error ("ValidationError: " ++ fname)

/-- Pydantic v2 validation of a `str | None = None` field. -/
def validateOptStrField (fname : String) : Option Json → Except String (Option String)
  | none => .ok none
  | some (.str s) => .ok (some s)
  | some _ => .error ("ValidationError: " ++ fname)

/-- Pydantic v2 validation of a `float | None = None` field (numbers modelled
exactly as rationals). -/
def validateOptFloatField (fname : String) : Option Json → Except String (Option Rat)
  | none => .ok none
  | some (.num q) => .ok (some q)
  | some _ => .error ("ValidationError: " ++ fname)

/-- The shape-dispatch of `parse_action`: construct the pydantic model chosen
by the normalized discriminant `atype`, with `sel` the already-built optional
selector.  `ClickAction`, `TypeAction` and `SelectAction` require the
selector; `NavigateAction`, `TypeAction`, `SelectAction` and `WaitAction`
validate their extra field from the JSON object; any other discriminant
constructs a `BaseAction`. -/
def dispatchAction (atype : String) (sel : Option Selector)
    (fields : List (String × Json)) : Except String Action :=
  if atype == "ClickAction" then
    match sel with
    | some s => .ok (.ClickAction atype s)
    | none => .error "ValidationError: selector"
  else if atype == "NavigateAction" then
    match validateOptStrField "url" (pyGet fields "url") with
    | .ok url => .ok (.NavigateAction atype url)
    | .error e => .error e
  else if atype == "TypeAction" then
    match validateStrField "text" (pyGetD fields "text" (.str "")), sel with
    | .ok text, some s => .ok (.TypeAction atype text s)
    | .ok _, none => .error "ValidationError: selector"
    | .error e, _ => .error e
  else if atype == "SelectAction" then
    match validateStrField "value" (pyGetD fields "value" (.str "")), sel with
    | .ok v, some s => .ok (.SelectAction atype v s)
    | .ok _, none => .error "ValidationError: selector"
    | .error e, _ => .error e
  else if atype == "WaitAction" then
    match validateOptFloatField "time_seconds" (pyGet fields "time_seconds") with
    | .ok ts => .ok (.WaitAction atype ts)
    | .error e => .error e
  else
    .ok (.BaseAction atype sel)

/-- The shape-construction part of the second `try` block of
`ActionGenerator.parse_action`: read the discriminant from the decoded JSON
value, check its truthiness (the explicit `ValueError`), normalize it, build
the selector, and construct the dispatched action shape `obj`.
`Except.error e` models an exception raised anywhere in this block
(`AttributeError` on non-dict data or non-string discriminant, the explicit
`ValueError`, or a pydantic `ValidationError`). -/
def buildActionObj (data : Json) : Except String Action :=
  match data with
  | .obj fields =>
    if optTruthy (readDiscriminant fields) = false then
      .error "Missing action or type field"
    else
      match readDiscriminant fields with
      | some (.str s0) =>
        (match selectorField fields with
         | .ok sel => dispatchAction (normalizeDiscriminant s0) sel fields
         | .error e => .error e)
      | _ => .error "AttributeError: endswith"
  | _ => .error "AttributeError: get"

/-- The full body of the second `try` block: construct the shape, then
`return str(obj)`. -/
def buildActionString (data : Json) : Except String String :=
  (buildActionObj data).map Action.render

/-- `ActionGenerator.parse_action`.  `jsonLoads` stands for Python
`json.loads` (returning `none` when it raises); empty input is returned
unchanged; a decode failure, and any exception in `buildActionString`,
falls back to the stripped raw input. -/
def parse_action (jsonLoads : String → Option Json) (action_text : String) : String :=
  if action_text == "" then action_text
  else
    match jsonLoads action_text with
    | none => pyStrip action_text
    | some data =>
      match buildActionString data with
      | .ok s => s
      | .error _ => pyStrip action_text

/-- One entry of the request `history` list: the values at keys `action` and
`result`, when present (string-valued per the Task Request data model). -/
structure HistoryEntry where
  action : Option String
  result : Option String

/-- `entry.get("action", "unknown")`. -/
def entryAction (e : HistoryEntry) : String := e.action.getD "unknown"

/-- `entry.get("result", "")`. -/
def entryResult (e : HistoryEntry) : String := e.result.getD ""

/-- The `formatted` line list built by the loop of `_format_history`, with the
enumeration starting at index `i` (the code starts at 1). -/
def formatHistoryAux (i : Nat) : List HistoryEntry → List String
  | [] => []
  | e :: rest =>
    ("Step " ++ toString i ++ ": " ++ entryAction e)
      :: ((if entryResult e == "" then [] else ["  Result: " ++ entryResult e])
          ++ formatHistoryAux (i + 1) rest)

/-- `ActionGenerator._format_history`. -/
def format_history (history : List HistoryEntry) : String :=
  if history.isEmpty then ""
  else String.intercalate "\n" (formatHistoryAux 1 history)

/-- Literal segment 1 of `WEB_ACTION_GENERATOR_PROMPT` (`src/prompts.py`), the template text between consecutive `Template` placeholders. -/
def actionPromptSeg1 : String :=
  "\nYou are an ACTION GENERATOR for a web automation system.\nYour ONLY responsibility is to generate the NEXT SINGLE ACTION to take on the webpage.\nYou do NOT explain, reason, describe, or summarize.\nYou do NOT perform automation yourself.\nYou ONLY output a valid JSON action object.\n\nTask:\n"

/-- Literal segment 2 of `WEB_ACTION_GENERATOR_PROMPT` (`src/prompts.py`), the template text between consecutive `Template` placeholders. -/
def actionPromptSeg2 : String :=
  "\n\nCurrent URL:\n"

/-- Literal segment 3 of `WEB_ACTION_GENERATOR_PROMPT` (`src/prompts.py`), the template text between consecutive `Template` placeholders. -/
def actionPromptSeg3 : String :=
  "\n\nStep:\n"

/-- Literal segment 4 of `WEB_ACTION_GENERATOR_PROMPT` (`src/prompts.py`), the template text between consecutive `Template` placeholders. -/
def actionPromptSeg4 : String :=
  "\n\nPrevious Actions:\n"

/-- Literal segment 5 of `WEB_ACTION_GENERATOR_PROMPT` (`src/prompts.py`), the template text between consecutive `Template` placeholders. -/
def actionPromptSeg5 : String :=
  "\n\nCurrent Page HTML (optimized):\n"

/-- Literal segment 6 of `WEB_ACTION_GENERATOR_PROMPT` (`src/prompts.py`), the template text between consecutive `Template` placeholders. -/
def actionPromptSeg6 : String :=
  "\n\nBased on the task, the current page state, and previous actions, determine the SINGLE NEXT ACTION to take.\n\nAvailable Actions\nYou may return ONLY ONE of the following actions:\n\nClickAction\nNavigateAction\nTypeAction\nSelectAction\nWaitAction\n\nAvailable Selectors\nxpathSelector(value)\n\nOutput Rules\n- Output MUST be valid JSON\n- Return ONLY ONE action\n- Do NOT include explanations, comments, reasoning, or extra text\n- Use XPath selectors ONLY\n- The JSON output MUST strictly match ONE of the schemas below\n- Do NOT hallucinate elements that do not exist in the provided HTML\n- Prefer deterministic, visible, and interactable elements\n- If no safe or valid action is possible, return a WaitAction\n\nAction JSON Schemas\n\nClick\n\x7b\n  \"action\": \"ClickAction\",\n  \"selector\": \x7b\n    \"type\": \"xpathSelector\",\n    \"value\": \"XPATH_EXPRESSION\"\n  \x7d\n\x7d\n\nNavigate\n\x7b\n  \"action\": \"NavigateAction\",\n  \"url\": \"TARGET_URL\"\n\x7d\n\nType\n\x7b\n  \"action\": \"TypeAction\",\n  \"text\": \"TEXT_TO_TYPE\",\n  \"selector\": \x7b\n    \"type\": \"xpathSelector\",\n    \"value\": \"XPATH_EXPRESSION\"\n  \x7d\n\x7d\n\nSelect\n\x7b\n  \"action\": \"SelectAction\",\n  \"value\": \"OPTION_VALUE\",\n  \"selector\": \x7b\n    \"type\": \"xpathSelector\",\n    \"value\": \"XPATH_EXPRESSION\"\n  \x7d\n\x7d\n\nWait\n\x7b\n  \"action\": \"WaitAction\",\n  \"time_seconds\": NUMBER\n\x7d\n\nExample Outputs\n\nExample 1: Typing into a login form\n\x7b\n  \"action\": \"TypeAction\",\n  \"text\": \"john.doe@example.com\",\n  \"selector\": \x7b\n    \"type\": \"xpathSelector\",\n    \"value\": \"//input[@type=\x27email\x27 or @name=\x27email\x27]\"\n  \x7d\n\x7d\n\nExample 2: Clicking a button with multiple matching elements\n\x7b\n  \"action\": \"ClickAction\",\n  \"selector\": \x7b\n    \"type\": \"xpathSelector\",\n    \"value\": \"(//button[contains(normalize-space(text()), \x27Continue\x27)])[1]\"\n  \x7d\n\x7d\n\nExample 3: Selecting an option from a dropdown\n\x7b\n  \"action\": \"SelectAction\",\n  \"value\": \"United States\",\n  \"selector\": \x7b\n    \"type\": \"xpathSelector\",\n    \"value\": \"//select[@name=\x27country\x27]\"\n  \x7d\n\x7d\n\nExample 4: Navigating to a new page explicitly\n\x7b\n  \"action\": \"NavigateAction\",\n  \"url\": \"https://example.com/dashboard\"\n\x7d\n\nExample 5: Waiting due to loading or missing interactable elements\n\x7b\n  \"action\": \"WaitAction\",\n  \"time_seconds\": 3\n\x7d\n\nExample 6: Clicking a deeply nested element with attributes\n\x7b\n  \"action\": \"ClickAction\",\n  \"selector\": \x7b\n    \"type\": \"xpathSelector\",\n    \"value\": \"//div[@role=\x27dialog\x27]//button[@aria-label=\x27Close\x27]\"\n  \x7d\n\x7d\n\nExample 7: Typing into a dynamically generated input field\n\x7b\n  \"action\": \"TypeAction\",\n  \"text\": \"password123!\",\n  \"selector\": \x7b\n    \"type\": \"xpathSelector\",\n    \"value\": \"//input[contains(@id, \x27password\x27)]\"\n  \x7d\n\x7d\n"

/-- Literal segment 1 of `HTML_OPTIMIZER_PROMPT` (`src/prompts.py`), the template text between consecutive `Template` placeholders. -/
def optimizerPromptSeg1 : String :=
  "\nYou are an HTML OPTIMIZER for a web automation system.\nYour ONLY responsibility is to transform raw HTML into a CLEAN, REDUCED, and ACTION-RELEVANT HTML representation.\nYou do NOT generate actions.\nYou do NOT explain your reasoning.\nYou ONLY output optimized HTML.\n\nInput URL:\n"

/-- Literal segment 2 of `HTML_OPTIMIZER_PROMPT` (`src/prompts.py`), the template text between consecutive `Template` placeholders. -/
def optimizerPromptSeg2 : String :=
  "\n\nRaw HTML:\n"

/-- Literal segment 3 of `HTML_OPTIMIZER_PROMPT` (`src/prompts.py`), the template text between consecutive `Template` placeholders. -/
def optimizerPromptSeg3 : String :=
  "\n\nOptimization Goals\n- Preserve elements that are potentially interactable or useful for automation\n- Remove noise, duplication, and irrelevant content\n- Keep the DOM structure understandable and minimal\n- Ensure the optimized HTML can be reliably used to generate XPath selectors\n\nElements to PRESERVE\n- Interactive elements:\n  - button\n  - a (links)\n  - input\n  - textarea\n  - select\n  - option\n- Elements with attributes:\n  - id\n  - name\n  - role\n  - aria-*\n  - type\n  - value\n  - placeholder\n  - href\n  - data-*\n- Elements with visible or actionable text\n- Elements that act as containers for interactable elements (e.g., form, dialog, nav)\n\nElements to REMOVE\n- script\n- style\n- noscript\n- svg\n- canvas\n- iframe (unless clearly interactive)\n- meta, link, head\n- comments\n- tracking or analytics markup\n- invisible elements (display:none, hidden, aria-hidden=true)\n- excessive nesting with no semantic or functional value\n\nAttribute Rules\n- Keep only attributes useful for XPath generation or element identification\n- Remove inline styles unless they affect visibility\n- Normalize whitespace in text nodes\n- Truncate very long text content if not relevant to interaction\n\nStructural Rules\n- Preserve parent-child relationships where they help identify elements\n- Flatten deeply nested structures when safe\n- Remove duplicate sibling elements if they are identical\n- Keep forms and dialogs intact\n\nOutput Rules\n- Output MUST be valid HTML\n- Output ONLY the optimized HTML\n- Do NOT include explanations, comments, markdown, or extra text\n- Do NOT hallucinate elements not present in the raw HTML\n- Do NOT add new attributes or modify values\n- Maintain the original order of elements as much as possible\n\nExample\n\nRaw HTML:\n<div>\n  <script>alert(\"hi\")</script>\n  <form id=\"loginForm\">\n    <label>Email</label>\n    <input type=\"email\" name=\"email\" style=\"color:red\">\n    <input type=\"password\" name=\"password\">\n    <button onclick=\"submit()\">Login</button>\n  </form>\n</div>\n\nOptimized HTML:\n<form id=\"loginForm\">\n  <label>Email</label>\n  <input type=\"email\" name=\"email\">\n  <input type=\"password\" name=\"password\">\n  <button>Login</button>\n</form>\n"

/-- `ActionGenerator._build_action_prompt`: substitute the five runtime values
into the action-generation template (`Template.substitute` splices each value
once, verbatim, at its `$name` placeholder); an empty formatted history is
replaced by the sentinel "No previous actions". -/
def build_action_prompt (prompt optimized_html : String) (step_index : Int)
    (history : List HistoryEntry) (url : String) : String :=
  let history_text := format_history history
  actionPromptSeg1 ++ prompt ++ actionPromptSeg2 ++ url ++ actionPromptSeg3
    ++ toString step_index ++ actionPromptSeg4
    ++ (if history_text == "" then "No previous actions" else history_text)
    ++ actionPromptSeg5 ++ optimized_html ++ actionPromptSeg6

/-- `HTMLOptimizer._build_optimization_prompt`: when a non-empty task context
is given, prepend it to the raw HTML as a labelled block; substitute the URL
and the (possibly prefixed) HTML into the optimization template. -/
def build_optimization_prompt (html url : String) (task_context : Option String) : String :=
  let raw_html :=
    match task_context with
    | some ctx => if ctx == "" then html else "Task Context:\n" ++ ctx ++ "\n\n" ++ html
    | none => html
  optimizerPromptSeg1 ++ url ++ optimizerPromptSeg2 ++ raw_html ++ optimizerPromptSeg3

/-- `HTMLOptimizer.optimize`: build the optimization prompt, call the gateway
(`LLMClient.generate`, modelled as `gw`; `Except.error` is a raised
exception, propagated unchanged), and strip the reply. -/
def optimize (gw : String → Except String String) (html url : String)
    (task_context : Option String) : Except String String :=
  (gw (build_optimization_prompt html url task_context)).map pyStrip

/-- `ActionGenerator.generate_action`: build the action prompt, call the
gateway, and strip the reply. -/
def generate_action (gw : String → Except String String) (prompt optimized_html : String)
    (step_index : Int) (history : List HistoryEntry) (url : String) : Except String String :=
  (gw (build_action_prompt prompt optimized_html step_index history url)).map pyStrip

/-- A schema-valid body of `POST /act` (`ActRequest` in `main.py`). -/
structure ActRequest where
  task_id : String
  prompt : String
  start_url : String
  snapshot_html : String
  step_index : Int
  web_project_id : String
  history : List HistoryEntry

/-- The 200 response body of `POST /act` (`ActResponse` in `main.py`). -/
structure ActResponse where
  action : String
  task_id : String
  step_index : Int
deriving DecidableEq

/-- An `HTTPException` raised by the handler (status code and detail). -/
structure HTTPError where
  status_code : Nat
  detail : String
deriving DecidableEq

/-- The `POST /act` handler of `main.py` on a schema-valid request: optimize
the snapshot HTML (task context = the prompt), generate the action, parse it,
and echo `task_id` and `step_index`; any exception raised by the two gateway
calls is caught by the surrounding `try` and converted to a 500
`HTTPException` whose detail prefixes the message with
"Error processing action: ".  (`parse_action` is total, so parsing
contributes no exception.) -/
def act (gwHtml gwAction : String → Except String String)
    (jsonLoads : String → Option Json) (req : ActRequest) : Except HTTPError ActResponse :=
  match optimize gwHtml req.snapshot_html req.start_url (some req.prompt) with
  | .error e => .error { status_code := 500, detail := "Error processing action: " ++ e }
  | .ok optimized_html =>
    match generate_action gwAction req.prompt optimized_html req.step_index
        req.history req.start_url with
    | .error e => .error { status_code := 500, detail := "Error processing action: " ++ e }
    | .ok action0 =>
      .ok { action := parse_action jsonLoads action0
            task_id := req.task_id
            step_index := req.step_index }

/-! ### Helper lemmas -/

theorem parse_action_none {jl : String → Option Json} {s : String}
    (hs : s ≠ "") (hjl : jl s = none) : parse_action jl s = pyStrip s := by
  simp [parse_action, hs, hjl]

theorem parse_action_some_err {jl : String → Option Json} {s : String} {d : Json}
    {e : String} (hs : s ≠ "") (hjl : jl s = some d)
    (hb : buildActionString d = Except.error e) : parse_action jl s = pyStrip s := by
  simp [parse_action, hs, hjl, hb]

theorem parse_action_some_ok {jl : String → Option Json} {s : String} {d : Json}
    {r : String} (hs : s ≠ "") (hjl : jl s = some d)
    (hb : buildActionString d = Except.ok r) : parse_action jl s = r := by
  simp [parse_action, hs, hjl, hb]

theorem pyStrip_empty : pyStrip "" = "" := rfl

theorem buildActionObj_nonobj {v : Json} (h : v.isObj = false) :
    buildActionObj v = Except.error "AttributeError: get" := by
  cases v <;> first
    | rfl
    | simp [Json.isObj] at h

/-! ### Claims -/

/-- C1: the action parser is total and never raises: for any input string,
if an exception occurs anywhere in the discriminant/selector/shape/render
block (modelled by `buildActionString` returning `Except.error`),
`parse_action` returns the input with surrounding whitespace stripped. -/
theorem parse_action_total_fallback :
    ∀ (jl : String → Option Json) (s : String) (d : Json) (e : String),
      jl s = some d → buildActionString d = Except.error e →
      parse_action jl s = pyStrip s := by
  intro jl s d e hjl hb
  by_cases hs : s = ""
  · subst hs
    rfl
  · exact parse_action_some_err hs hjl hb

/-- Witness for C1 at a concrete input (a JSON array decodes, then the
`.get` attribute lookup raises, and the trimmed input comes back). -/
theorem parse_action_total_fallback_witness :
    parse_action (fun _ => some (Json.arr [])) " x " = pyStrip " x " :=
  parse_action_total_fallback (fun _ => some (Json.arr [])) " x " (Json.arr [])
    "AttributeError: get" rfl rfl

/-- C4: for every non-empty string on which JSON decoding fails,
`parse_action` returns the stripped input; the empty string is returned
unchanged. -/
theorem parse_action_nonjson :
    ∀ (jl : String → Option Json) (s : String),
      (s ≠ "" → jl s = none → parse_action jl s = pyStrip s) ∧
      parse_action jl "" = "" := by
  intro jl s
  exact ⟨fun hs hjl => parse_action_none hs hjl, rfl⟩

/-- Witness for C4 at a concrete non-JSON input and at the empty string. -/
theorem parse_action_nonjson_witness :
    parse_action (fun _ => none) "  plain text  " = pyStrip "  plain text  " ∧
    parse_action (fun _ => none) "" = "" :=
  ⟨(parse_action_nonjson (fun _ => none) "  plain text  ").1 (by decide) rfl,
   (parse_action_nonjson (fun _ => none) "").2⟩

/-- C10: a non-empty input that decodes to a non-object JSON value (number,
string, boolean, null or array) also falls back to the stripped input: the
attribute lookup on the non-dict value raises and is caught. -/
theorem parse_action_nonobject :
    ∀ (jl : String → Option Json) (s : String) (v : Json),
      s ≠ "" → jl s = some v → v.isObj = false →
      parse_action jl s = pyStrip s := by
  intro jl s v hs hjl hv
  exact parse_action_some_err hs hjl
    (by rw [buildActionString, buildActionObj_nonobj hv]; rfl)

/-- Witness for C10 at a concrete numeric JSON input. -/
theorem parse_action_nonobject_witness :
    parse_action (fun _ => some (Json.num 3)) " 3 " = pyStrip " 3 " :=
  parse_action_nonobject (fun _ => some (Json.num 3)) " 3 " (Json.num 3)
    (by decide) rfl rfl

/-- C9: both orchestrators return the gateway's reply with surrounding
whitespace removed and no other transformation: when the gateway call
returns `r`, `optimize` returns `strip(r)` and `generate_action` returns
`strip(r)`. -/
theorem orchestrators_strip_reply :
    (∀ (gw : String → Except String String) (html url : String)
        (ctx : Option String) (r : String),
      gw (build_optimization_prompt html url ctx) = Except.ok r →
      optimize gw html url ctx = Except.ok (pyStrip r)) ∧
    (∀ (gw : String → Except String String) (prompt oh : String) (si : Int)
        (history : List HistoryEntry) (url : String) (r : String),
      gw (build_action_prompt prompt oh si history url) = Except.ok r →
      generate_action gw prompt oh si history url = Except.ok (pyStrip r)) := by
  constructor
  · intro gw html url ctx r h
    rw [optimize, h]
    rfl
  · intro gw prompt oh si history url r h
    rw [generate_action, h]
    rfl

/-- Witness for C9 at a concrete gateway reply carrying stray whitespace. -/
theorem orchestrators_strip_reply_witness :
    optimize (fun _ => Except.ok "  <div/>  ") "<html/>" "u" none =
      Except.ok (pyStrip "  <div/>  ") ∧
    generate_action (fun _ => Except.ok " click ") "p" "<div/>" 0 [] "u" =
      Except.ok (pyStrip " click ") :=
  ⟨orchestrators_strip_reply.1 (fun _ => Except.ok "  <div/>  ") "<html/>" "u" none
      "  <div/>  " rfl,
   orchestrators_strip_reply.2 (fun _ => Except.ok " click ") "p" "<div/>" 0 [] "u"
      " click " rfl⟩

/-- C2: on a schema-valid request, a 200 response echoes `task_id` and
`step_index` and its `action` is the parser's output for the generator's
reply; an exception escaping reduction or generation yields a 500 whose
detail is "Error processing action: " followed by the message (parsing is
total and contributes no exception). -/
theorem act_endpoint_spec :
    ∀ (gwH gwA : String → Except String String) (jl : String → Option Json)
      (req : ActRequest),
      (∀ resp, act gwH gwA jl req = Except.ok resp →
        resp.task_id = req.task_id ∧ resp.step_index = req.step_index ∧
        ∃ oh reply,
          optimize gwH req.snapshot_html req.start_url (some req.prompt) =
            Except.ok oh ∧
          generate_action gwA req.prompt oh req.step_index req.history
            req.start_url = Except.ok reply ∧
          resp.action = parse_action jl reply) ∧
      (∀ e, optimize gwH req.snapshot_html req.start_url (some req.prompt) =
            Except.error e →
        act gwH gwA jl req =
          Except.error ⟨500, "Error processing action: " ++ e⟩) ∧
      (∀ oh e, optimize gwH req.snapshot_html req.start_url (some req.prompt) =
            Except.ok oh →
        generate_action gwA req.prompt oh req.step_index req.history
            req.start_url = Except.error e →
        act gwH gwA jl req =
          Except.error ⟨500, "Error processing action: " ++ e⟩) := by
  intro gwH gwA jl req
  refine ⟨?_, ?_, ?_⟩
  · intro resp hresp
    cases hOpt : optimize gwH req.snapshot_html req.start_url (some req.prompt) with
    | error e => simp [act, hOpt] at hresp
    | ok oh =>
      cases hGen : generate_action gwA req.prompt oh req.step_index req.history
          req.start_url with
      | error e => simp [act, hOpt, hGen] at hresp
      | ok reply =>
        simp only [act, hOpt, hGen, Except.ok.injEq] at hresp
        subst hresp
        exact ⟨rfl, rfl, oh, reply, rfl, hGen, rfl⟩
  · intro e hOpt
    simp [act, hOpt]
  · intro oh e hOpt hGen
    simp [act, hOpt, hGen]

/-- Witness for C2: a success case (the action is the parsed, stripped
generator reply and the ids are echoed) and a failing-reducer case (a 500
with the prefixed detail). -/
theorem act_endpoint_spec_witness :
    ((⟨"go", "t1", 2⟩ : ActResponse).task_id =
        (⟨"t1", "p", "u", "<html/>", 2, "w", []⟩ : ActRequest).task_id ∧
      (⟨"go", "t1", 2⟩ : ActResponse).step_index =
        (⟨"t1", "p", "u", "<html/>", 2, "w", []⟩ : ActRequest).step_index ∧
      ∃ oh reply,
        optimize (fun _ => Except.ok " <p/> ") "<html/>" "u" (some "p") =
          Except.ok oh ∧
        generate_action (fun _ => Except.ok " go ") "p" oh 2 [] "u" =
          Except.ok reply ∧
        (⟨"go", "t1", 2⟩ : ActResponse).action = parse_action (fun _ => none) reply) ∧
    act (fun _ => Except.error "boom") (fun _ => Except.ok " go ") (fun _ => none)
        ⟨"t1", "p", "u", "<html/>", 2, "w", []⟩ =
      Except.error ⟨500, "Error processing action: boom"⟩ :=
  ⟨(act_endpoint_spec (fun _ => Except.ok " <p/> ") (fun _ => Except.ok " go ")
      (fun _ => none) ⟨"t1", "p", "u", "<html/>", 2, "w", []⟩).1
      ⟨"go", "t1", 2⟩ rfl,
   (act_endpoint_spec (fun _ => Except.error "boom") (fun _ => Except.ok " go ")
      (fun _ => none) ⟨"t1", "p", "u", "<html/>", 2, "w", []⟩).2.1
      "boom" rfl⟩

/-- The discriminant reader that the C3 sentence describes, stated from the
spec's words for comparison with the code's `readDiscriminant`:
"first *non-null* value wins, order `type` then `action`" (a present non-null
`type` value always wins, whatever it is). -/
def readDiscriminantSpecNonNull (fields : List (String × Json)) : Option Json :=
  match pyGet fields "type" with
  | some v => some v
  | none => pyGet fields "action"

/-- Counterexample to C3: on the object with `type` mapped to the non-null
empty string and `action` mapped to "Click", the code's Python-`or` chain
skips the falsy `type` value and reads "Click" from `action`, while the
claim's first-non-null rule would read the empty string; through
`parse_action` the `action` key observably wins (the output is the rendered
`ClickAction`, not the rendered generic "Action" shape). -/
theorem readDiscriminant_nonnull_counterexample :
    readDiscriminant [("type", Json.str ""), ("action", Json.str "Click")] =
      some (Json.str "Click") ∧
    readDiscriminantSpecNonNull [("type", Json.str ""), ("action", Json.str "Click")] =
      some (Json.str "") ∧
    parse_action
      (fun _ => some (Json.obj [("type", Json.str ""), ("action", Json.str "Click"),
        ("selector", Json.obj [("type", Json.str "xpathSelector"),
          ("value", Json.str "//x")])]))
      "x" =
      Action.render (Action.ClickAction "ClickAction"
        ⟨SelectorType.XPATH_SELECTOR, none, "//x"⟩) :=
  ⟨rfl, rfl, by decide⟩

/-- C3 amended: the discriminant is read from `type` or `action` with the
first *truthy* value winning (Python `or`), in order `type` then `action`;
a present but falsy `type` value (empty string, `false`, `0`, `null`) is
skipped in favour of `action`; when neither key is present, `parse_action`
returns the trimmed original input. -/
theorem readDiscriminant_truthy_first :
    ∀ (fields : List (String × Json)) (jl : String → Option Json) (s : String),
      (optTruthy (pyGet fields "type") = true →
        readDiscriminant fields = pyGet fields "type") ∧
      (optTruthy (pyGet fields "type") = false →
        readDiscriminant fields = pyGet fields "action") ∧
      (jl s = some (Json.obj fields) → pyGet fields "type" = none →
        pyGet fields "action" = none → parse_action jl s = pyStrip s) := by
  intro fields jl s
  refine ⟨?_, ?_, ?_⟩
  · intro h
    simp [readDiscriminant, pyOr, h]
  · intro h
    simp [readDiscriminant, pyOr, h]
  · intro hjl h1 h2
    by_cases hs : s = ""
    · subst hs
      rfl
    · have hb : buildActionString (Json.obj fields) =
          Except.error "Missing action or type field" := by
        simp [buildActionString, buildActionObj, readDiscriminant, pyOr, h1, h2,
          optTruthy, Except.map]
      exact parse_action_some_err hs hjl hb

/-- Witness for the amended C3 at concrete objects: a truthy `type` wins,
a missing `type` falls through to `action`, and an object with neither key
makes `parse_action` fall back to the trimmed input. -/
theorem readDiscriminant_truthy_first_witness :
    readDiscriminant [("type", Json.str "Wait")] =
      pyGet [("type", Json.str "Wait")] "type" ∧
    readDiscriminant [("action", Json.str "Click")] =
      pyGet [("action", Json.str "Click")] "action" ∧
    parse_action (fun _ => some (Json.obj [("foo", Json.str "bar")])) " q " =
      pyStrip " q " :=
  ⟨(readDiscriminant_truthy_first [("type", Json.str "Wait")] (fun _ => none) "").1 rfl,
   (readDiscriminant_truthy_first [("action", Json.str "Click")] (fun _ => none) "").2.1 rfl,
   (readDiscriminant_truthy_first [("foo", Json.str "bar")]
      (fun _ => some (Json.obj [("foo", Json.str "bar")])) " q ").2.2 rfl rfl rfl⟩

theorem dispatch_cts_noselector (atype : String) (fields : List (String × Json))
    (h : atype = "ClickAction" ∨ atype = "TypeAction" ∨ atype = "SelectAction") :
    ∃ e, dispatchAction atype none fields = Except.error e := by
  rcases h with h | h | h <;> subst h
  · exact ⟨"ValidationError: selector", rfl⟩
  · cases hv : validateStrField "text" (pyGetD fields "text" (.str "")) with
    | ok t => exact ⟨"ValidationError: selector", by simp [dispatchAction, hv]⟩
    | error e => exact ⟨e, by simp [dispatchAction, hv]⟩
  · cases hv : validateStrField "value" (pyGetD fields "value" (.str "")) with
    | ok t => exact ⟨"ValidationError: selector", by simp [dispatchAction, hv]⟩
    | error e => exact ⟨e, by simp [dispatchAction, hv]⟩

/-- C5: a rendered Click/Type/Select output always carries a non-null
selector (the shape requires it), and a Click/Type/Select discriminant whose
selector is missing or not constructible makes the shape construction fail,
so `parse_action` returns the trimmed input. -/
theorem parse_action_selector_invariant :
    (∀ (jl : String → Option Json) (s : String) (d : Json) (a : Action),
      s ≠ "" → jl s = some d → buildActionObj d = Except.ok a →
      a.isClickTypeSelect = true →
      parse_action jl s = a.render ∧ ∃ sel, a.selectorOf = some sel) ∧
    (∀ (jl : String → Option Json) (s : String) (fields : List (String × Json))
        (t : String),
      jl s = some (Json.obj fields) →
      readDiscriminant fields = some (Json.str t) →
      (normalizeDiscriminant t = "ClickAction" ∨
        normalizeDiscriminant t = "TypeAction" ∨
        normalizeDiscriminant t = "SelectAction") →
      (∀ sel, selectorField fields ≠ Except.ok (some sel)) →
      parse_action jl s = pyStrip s) := by
  constructor
  · intro jl s d a hs hjl hb hcts
    constructor
    · exact parse_action_some_ok hs hjl (by rw [buildActionString, hb]; rfl)
    · cases a <;> simp [Action.isClickTypeSelect] at hcts <;> exact ⟨_, rfl⟩
  · intro jl s fields t hjl hd hmem hsel
    by_cases hs : s = ""
    · subst hs
      rfl
    · by_cases ht : t = ""
      · subst ht
        have hb : buildActionString (Json.obj fields) =
            Except.error "Missing action or type field" := by
          simp [buildActionString, buildActionObj, hd, optTruthy, Json.truthy,
            Except.map]
        exact parse_action_some_err hs hjl hb
      · cases hsf : selectorField fields with
        | error e =>
          have hb : buildActionString (Json.obj fields) = Except.error e := by
            simp [buildActionString, buildActionObj, hd, optTruthy, Json.truthy,
              ht, hsf, Except.map]
          exact parse_action_some_err hs hjl hb
        | ok sel =>
          cases sel with
          | some s' => exact absurd hsf (hsel s')
          | none =>
            obtain ⟨e, he⟩ := dispatch_cts_noselector (normalizeDiscriminant t)
              fields hmem
            have hb : buildActionString (Json.obj fields) = Except.error e := by
              simp [buildActionString, buildActionObj, hd, optTruthy, Json.truthy,
                ht, hsf, he, Except.map]
            exact parse_action_some_err hs hjl hb

/-- Witness for C5: a well-formed Click input renders with its selector, and
a Click discriminant without any selector falls back to the trimmed input. -/
theorem parse_action_selector_invariant_witness :
    (parse_action
        (fun _ => some (Json.obj [("type", Json.str "Click"),
          ("selector", Json.obj [("type", Json.str "xpathSelector"),
            ("value", Json.str "//b")])]))
        "x" =
      (Action.ClickAction "ClickAction"
        ⟨SelectorType.XPATH_SELECTOR, none, "//b"⟩).render ∧
      ∃ sel, (Action.ClickAction "ClickAction"
        ⟨SelectorType.XPATH_SELECTOR, none, "//b"⟩).selectorOf = some sel) ∧
    parse_action (fun _ => some (Json.obj [("type", Json.str "Click")])) " y " =
      pyStrip " y " :=
  ⟨parse_action_selector_invariant.1
      (fun _ => some (Json.obj [("type", Json.str "Click"),
        ("selector", Json.obj [("type", Json.str "xpathSelector"),
          ("value", Json.str "//b")])]))
      "x" _ (Action.ClickAction "ClickAction" ⟨SelectorType.XPATH_SELECTOR, none, "//b"⟩)
      (by decide) rfl rfl rfl,
   parse_action_selector_invariant.2
      (fun _ => some (Json.obj [("type", Json.str "Click")])) " y "
      [("type", Json.str "Click")] "Click" rfl rfl (Or.inl (by decide))
      (fun sel h => Option.noConfusion (Except.ok.inj h))⟩

/-- The C6 probe inputs: the same selector object (here the empty object,
from which no `Selector` is constructible) under the two discriminant
spellings. -/
def c6InputShort : String := "\x7b\"type\":\"Click\",\"selector\":\x7b\x7d\x7d"

def c6InputLong : String := "\x7b\"type\":\"ClickAction\",\"selector\":\x7b\x7d\x7d"

/-- `json.loads` on the two C6 probe inputs. -/
def c6JsonLoads : String → Option Json := fun s =>
  if s = c6InputShort then
    some (Json.obj [("type", Json.str "Click"), ("selector", Json.obj [])])
  else if s = c6InputLong then
    some (Json.obj [("type", Json.str "ClickAction"), ("selector", Json.obj [])])
  else none

/-- Counterexample to C6: with the empty selector object, shape construction
fails on both sides and each parse falls back to its own trimmed raw input —
two different strings — so the claimed equality does not hold for *every*
selector object. -/
theorem normalization_equivalence_counterexample :
    parse_action c6JsonLoads c6InputShort = c6InputShort ∧
    parse_action c6JsonLoads c6InputLong = c6InputLong ∧
    parse_action c6JsonLoads c6InputShort ≠ parse_action c6JsonLoads c6InputLong := by
  refine ⟨by decide, by decide, by decide⟩

/-- C6 amended: a discriminant not already ending in "Action" has "Action"
appended, and for every selector object from which a `Selector` value is
constructible, parsing `type: Click` and `type: ClickAction` with that same
selector yields identical output. -/
theorem normalization_equivalence :
    (∀ t : String, pyEndsWith t "Action" = false →
      normalizeDiscriminant t = t ++ "Action") ∧
    (∀ (jl : String → Option Json) (s₁ s₂ : String)
        (sfs : List (String × Json)) (sel : Selector),
      s₁ ≠ "" → s₂ ≠ "" →
      jl s₁ = some (Json.obj [("type", Json.str "Click"),
        ("selector", Json.obj sfs)]) →
      jl s₂ = some (Json.obj [("type", Json.str "ClickAction"),
        ("selector", Json.obj sfs)]) →
      Selector.validate sfs = Except.ok sel →
      parse_action jl s₁ = parse_action jl s₂) := by
  constructor
  · intro t ht
    simp [normalizeDiscriminant, ht]
  · intro jl s₁ s₂ sfs sel hs₁ hs₂ hjl₁ hjl₂ hv
    have key : ∀ t : String, t ≠ "" → normalizeDiscriminant t = "ClickAction" →
        buildActionString
            (Json.obj [("type", Json.str t), ("selector", Json.obj sfs)]) =
          Except.ok (Action.ClickAction "ClickAction" sel).render := by
      intro t htr ht
      have hd : readDiscriminant
          [("type", Json.str t), ("selector", Json.obj sfs)] =
          some (Json.str t) := by
        simp [readDiscriminant, pyGet, dictFind, pyOr, optTruthy, Json.truthy, htr]
      have hsf : selectorField
          [("type", Json.str t), ("selector", Json.obj sfs)] =
          Except.ok (some sel) := by
        simp [selectorField, pyGet, dictFind, hv, Except.map]
      simp [buildActionString, buildActionObj, hd, hsf, optTruthy, Json.truthy,
        htr, ht, dispatchAction, Except.map]
    rw [parse_action_some_ok hs₁ hjl₁ (key "Click" (by decide) (by decide)),
      parse_action_some_ok hs₂ hjl₂ (key "ClickAction" (by decide) (by decide))]

/-- Witness for the amended C6 at a concrete constructible xpath selector. -/
theorem normalization_equivalence_witness :
    normalizeDiscriminant "Click" = "Click" ++ "Action" ∧
    parse_action
      (fun s => if s = "a" then
          some (Json.obj [("type", Json.str "Click"),
            ("selector", Json.obj [("type", Json.str "xpathSelector"),
              ("value", Json.str "//b")])])
        else
          some (Json.obj [("type", Json.str "ClickAction"),
            ("selector", Json.obj [("type", Json.str "xpathSelector"),
              ("value", Json.str "//b")])]))
      "a" =
    parse_action
      (fun s => if s = "a" then
          some (Json.obj [("type", Json.str "Click"),
            ("selector", Json.obj [("type", Json.str "xpathSelector"),
              ("value", Json.str "//b")])])
        else
          some (Json.obj [("type", Json.str "ClickAction"),
            ("selector", Json.obj [("type", Json.str "xpathSelector"),
              ("value", Json.str "//b")])]))
      "b" :=
  ⟨normalization_equivalence.1 "Click" (by decide),
   normalization_equivalence.2
      (fun s => if s = "a" then
          some (Json.obj [("type", Json.str "Click"),
            ("selector", Json.obj [("type", Json.str "xpathSelector"),
              ("value", Json.str "//b")])])
        else
          some (Json.obj [("type", Json.str "ClickAction"),
            ("selector", Json.obj [("type", Json.str "xpathSelector"),
              ("value", Json.str "//b")])]))
      "a" "b" [("type", Json.str "xpathSelector"), ("value", Json.str "//b")]
      ⟨SelectorType.XPATH_SELECTOR, none, "//b"⟩
      (by decide) (by decide) rfl rfl rfl⟩

/-- The history transcript described by the spec: for the k-th entry
(k = 1..N, chronological order), one line "Step k: <action>", followed by a
line "  Result: <result>" exactly when that entry's result is non-empty. -/
def historyTranscript (history : List HistoryEntry) : List String :=
  (history.enumFrom 1).flatMap (fun p =>
    ("Step " ++ toString p.fst ++ ": " ++ entryAction p.snd)
      :: (if entryResult p.snd = "" then [] else ["  Result: " ++ entryResult p.snd]))

theorem formatHistoryAux_eq_transcript (history : List HistoryEntry) :
    ∀ i : Nat, formatHistoryAux i history =
      (history.enumFrom i).flatMap (fun p =>
        ("Step " ++ toString p.fst ++ ": " ++ entryAction p.snd)
          :: (if entryResult p.snd = "" then []
              else ["  Result: " ++ entryResult p.snd])) := by
  induction history with
  | nil => intro i; rfl
  | cons e rest ih =>
    intro i
    simp only [formatHistoryAux, List.enumFrom_cons, List.flatMap_cons, ih (i + 1)]
    by_cases hr : entryResult e = ""
    · simp [hr]
    · simp [hr]

/-- C7: an empty history makes the rendered generation prompt contain the
sentinel "No previous actions"; a history of length N formats to exactly the
N "Step k: <action>" lines, k = 1..N in chronological order, each followed
by a "  Result: <result>" line exactly when that entry's result is
non-empty; the non-empty transcript is spliced verbatim into the prompt. -/
theorem history_formatting :
    (∀ (prompt oh : String) (si : Int) (url : String), ∃ pre post,
      build_action_prompt prompt oh si [] url =
        pre ++ "No previous actions" ++ post) ∧
    (∀ history : List HistoryEntry,
      formatHistoryAux 1 history = historyTranscript history) ∧
    (∀ history : List HistoryEntry, history ≠ [] →
      format_history history = String.intercalate "\n" (historyTranscript history)) ∧
    (∀ (prompt oh : String) (si : Int) (history : List HistoryEntry)
        (url : String), format_history history ≠ "" → ∃ pre post,
      build_action_prompt prompt oh si history url =
        pre ++ format_history history ++ post) := by
  refine ⟨?_, ?_, ?_, ?_⟩
  · intro prompt oh si url
    refine ⟨actionPromptSeg1 ++ prompt ++ actionPromptSeg2 ++ url ++
      actionPromptSeg3 ++ toString si ++ actionPromptSeg4,
      actionPromptSeg5 ++ oh ++ actionPromptSeg6, ?_⟩
    simp [build_action_prompt, format_history, String.append_assoc]
  · intro history
    exact formatHistoryAux_eq_transcript history 1
  · intro history hne
    rw [format_history, if_neg (by simpa using hne),
      formatHistoryAux_eq_transcript history 1]
    rfl
  · intro prompt oh si history url hne
    refine ⟨actionPromptSeg1 ++ prompt ++ actionPromptSeg2 ++ url ++
      actionPromptSeg3 ++ toString si ++ actionPromptSeg4,
      actionPromptSeg5 ++ oh ++ actionPromptSeg6, ?_⟩
    simp [build_action_prompt, hne, String.append_assoc]

/-- Witness for C7: the empty history renders to a prompt containing the
sentinel; a two-entry history (one with a result, one without) formats to
exactly its transcript lines. -/
theorem history_formatting_witness :
    (∃ pre post, build_action_prompt "do it" "<div/>" 0 [] "http://u" =
      pre ++ "No previous actions" ++ post) ∧
    format_history [⟨some "navigate", some "Page loaded"⟩, ⟨some "click", none⟩] =
      String.intercalate "\n" (historyTranscript
        [⟨some "navigate", some "Page loaded"⟩, ⟨some "click", none⟩]) :=
  ⟨history_formatting.1 "do it" "<div/>" 0 "http://u",
   history_formatting.2.2.1 [⟨some "navigate", some "Page loaded"⟩,
      ⟨some "click", none⟩] (by simp)⟩

/-- The exact C8 input from the spec and its decoding. -/
def c8Input : String :=
  "\x7b\"action\":\"ClickAction\",\"selector\":\x7b\"type\":\"xpathSelector\",\"value\":\"//button\"\x7d\x7d"

/-- `json.loads` on the C8 input. -/
def c8JsonLoads : String → Option Json := fun s =>
  if s = c8Input then
    some (Json.obj [("action", Json.str "ClickAction"),
      ("selector", Json.obj [("type", Json.str "xpathSelector"),
        ("value", Json.str "//button")])])
  else none

/-- C8: parsing the exact input
`(action ClickAction, selector (xpathSelector, //button))` yields the
rendered Click shape, and the returned string contains "//button" verbatim. -/
theorem parse_click_xpath_example :
    parse_action c8JsonLoads c8Input =
      Action.render (Action.ClickAction "ClickAction"
        ⟨SelectorType.XPATH_SELECTOR, none, "//button"⟩) ∧
    ∃ pre post, parse_action c8JsonLoads c8Input = pre ++ "//button" ++ post := by
  constructor
  · decide
  · refine ⟨"type=" ++ sq ++ "ClickAction" ++ sq ++
      " selector=Selector(type=<SelectorType.XPATH_SELECTOR: " ++ sq ++
      "xpathSelector" ++ sq ++ ">, attribute=None, value=" ++ sq,
      sq ++ ")", ?_⟩
    decide

end WebAgent
